import Mathlib

/-!
Verification of the Job Execution Guard of the supervisor repository.

The decorator runtime (`supervisor/jobs/decorator.py`) is exercised by
`tests/jobs/test_job_decorator.py`; the runtime itself is modelled from the
specification (each such definition says so in its doc comment), and checked
for consistency against the behaviour the tests pin down.
`supervisor/config.py` is embedded directly from its source.
-/

/-- Modelled from the spec: `core_state` of the SystemSnapshot, one of the
eight supervisor core states (spec section 3). -/
inductive CoreState where
  | INITIALIZE
  | SETUP
  | STARTUP
  | RUNNING
  | FREEZE
  | CLOSE
  | SHUTDOWN
  | STOPPING
deriving DecidableEq

/-- Modelled from the spec: `JobCondition`, the closed set of condition tags
(spec section 3). -/
inductive JobCondition where
  | HEALTHY
  | RUNNING
  | FREE_SPACE
  | INTERNET_HOST
  | INTERNET_SYSTEM
  | HAOS
  | OS_AGENT
  | HOST_NETWORK
  | AUTH
  | PLUGINS_UPDATED
  | SUPERVISOR_UPDATED
deriving DecidableEq

/-- Modelled from the spec: the read-only `SystemSnapshot` consulted by the
condition evaluator (spec section 3).  Tri-valued connectivity is `Option
Bool` with `none` standing for unknown; `free_disk_gib` is modelled as a
rational number. -/
structure SystemSnapshot where
  core_state : CoreState
  unhealthy_reasons : List String
  connectivity_host : Option Bool
  connectivity_supervisor : Option Bool
  free_disk_gib : ℚ
  haos_available : Bool
  os_agent_available : Bool
  auth_present : Bool
  plugins_up_to_date : Bool
  supervisor_up_to_date : Bool

/-- Modelled from the spec: the core-state pre-filter of section 4.1 — in the
states `INITIALIZE, STARTUP, CLOSE, SHUTDOWN, STOPPING` the connectivity
conditions are auto-passed; in `SETUP, RUNNING, FREEZE` they are evaluated
normally. -/
def prefilterAutoPass : CoreState → Bool
  | .INITIALIZE | .STARTUP | .CLOSE | .SHUTDOWN | .STOPPING => true
  | .SETUP | .RUNNING | .FREEZE => false

/-- Modelled from the spec: the condition predicates of section 4.1.  The
core-state pre-filter is applied to `INTERNET_HOST` and `INTERNET_SYSTEM`
only: the spec's predicate table gives `FREE_SPACE` as `pass iff
free_disk_gib >= 1.0` with no state proviso, and `test_free_space` (which
never leaves the initial core state) expects a low-disk call to be rejected,
so `FREE_SPACE` is not pre-filtered. -/
def evalCondition (snap : SystemSnapshot) : JobCondition → Bool
  | .HEALTHY => snap.unhealthy_reasons.isEmpty
  | .RUNNING => snap.core_state == .RUNNING
  | .FREE_SPACE => decide (1 ≤ snap.free_disk_gib)
  | .INTERNET_HOST =>
      prefilterAutoPass snap.core_state || !(snap.connectivity_host == some false)
  | .INTERNET_SYSTEM =>
      prefilterAutoPass snap.core_state || !(snap.connectivity_supervisor == some false)
  | .HAOS => snap.haos_available
  | .OS_AGENT => snap.os_agent_available
  | .HOST_NETWORK => !(snap.connectivity_host == some false)
  | .AUTH => snap.auth_present
  | .PLUGINS_UPDATED => snap.plugins_up_to_date
  | .SUPERVISOR_UPDATED => snap.supervisor_up_to_date

/-- Modelled from the spec: error kinds that can be configured as a job's
`on_condition` error (spec sections 6 and 7). -/
inductive ErrKind where
  | HassioError
  | SupervisorError
  | JobException
  | JobConditionFailed
deriving DecidableEq

/-- Modelled from the spec: an error raised by a job body.  `isDomain` records
whether it is the supervisor's base error type or a descendant (spec section
7: domain errors pass through the guard unwrapped). -/
structure RaisedError where
  isDomain : Bool
  name : String
deriving DecidableEq

/-- Modelled from the spec: an error surfaced by the guard — a re-raised
domain error, a `JobException` wrapping an unknown failure with the operation
identity and cause attached, or the configured `on_condition` error carrying
the failing condition (spec section 7). -/
inductive GuardError where
  | passthrough (e : RaisedError)
  | jobException (jobName : String) (cause : RaisedError)
  | conditionError (kind : ErrKind) (failing : JobCondition)
deriving DecidableEq

/-- Modelled from the spec: outcome of one invocation of a wrapped operation —
the body ran and returned, the call was silently rejected with the neutral
result, or an error was raised (spec sections 4.3 and 7). -/
inductive JobOutcome (ρ : Type) where
  | ran (r : ρ)
  | neutral
  | err (e : GuardError)
deriving DecidableEq

/-- Modelled from the spec: the static configuration a `Job` decorator binds
to an operation (spec section 4.3 step 1). -/
structure JobConfig where
  name : String
  conditions : List JobCondition
  on_condition : Option ErrKind

/-- Modelled from the spec: a condition fails the gate when it is not in the
ignore set and its predicate evaluates to false (section 4.1: a condition in
the `IgnoreSet` is forced to pass). -/
def failsCondition (snap : SystemSnapshot) (ignore : List JobCondition)
    (c : JobCondition) : Bool :=
  !(decide (c ∈ ignore)) && !(evalCondition snap c)

/-- Modelled from the spec: the evaluator returns the first failing condition,
or `none` when every condition passes (spec section 4.1). -/
def firstFailing (snap : SystemSnapshot) (ignore : List JobCondition)
    (conds : List JobCondition) : Option JobCondition :=
  conds.find? (failsCondition snap ignore)

/-- Modelled from the spec: one invocation of the guarded operation (spec
section 4.3).  Conditions are evaluated first; on a failing condition the
configured `on_condition` error kind is raised carrying the failing
condition, or the neutral result is returned when none is configured.  When
admitted, the body's value is returned; a domain error the body raises is
re-raised unchanged and any other error is wrapped in `JobException` with
the operation identity and cause. -/
def runJob {ρ : Type} (cfg : JobConfig) (ignore : List JobCondition)
    (snap : SystemSnapshot) (body : Except RaisedError ρ) : JobOutcome ρ :=
  match firstFailing snap ignore cfg.conditions with
  | some c =>
    match cfg.on_condition with
    | some k => .err (.conditionError k c)
    | none => .neutral
  | none =>
    match body with
    | .ok r => .ran r
    | .error e =>
      if e.isDomain then .err (.passthrough e)
      else .err (.jobException cfg.name e)

/-- Snapshot used by the core-state gating scenario: both connectivity values
are `false`, everything else healthy, parameterised by the core state. -/
def snapConnDown (s : CoreState) : SystemSnapshot :=
  ⟨s, [], some false, some false, 50, true, true, true, true, true⟩

/-- The job of `test_internet_connectivity_with_core_state`: conditions
`[INTERNET_SYSTEM, INTERNET_HOST]`, no `on_condition`. -/
def internetJob : JobConfig :=
  ⟨"TestClass.execute", [.INTERNET_SYSTEM, .INTERNET_HOST], none⟩

/-- Embedded from `supervisor/config.py`: the `_data[ATTR_ADDONS_CUSTOM_LIST]`
field of `CoreConfig` that backs the add-on repository API. -/
structure CoreConfig where
  addons_custom_list : List String
deriving DecidableEq

/-- Embedded from `supervisor/config.py` (`addons_repositories` property):
return the list of custom add-on repositories. -/
def CoreConfig.addons_repositories (c : CoreConfig) : List String :=
  c.addons_custom_list

/-- Embedded from `supervisor/config.py` (`add_addon_repository`): add a
custom repository, returning unchanged when already present, appending
otherwise. -/
def CoreConfig.add_addon_repository (c : CoreConfig) (repo : String) : CoreConfig :=
  if repo ∈ c.addons_custom_list then c
  else ⟨c.addons_custom_list ++ [repo]⟩

/-- A healthy snapshot in the RUNNING core state, used to exercise admitted
invocations. -/
def snapHealthy : SystemSnapshot :=
  ⟨.RUNNING, [], some true, some true, 50, true, true, true, true, true⟩

/-- Snapshot in the FREEZE core state (otherwise healthy), used by the
`RUNNING`-condition scenarios. -/
def snapFreeze : SystemSnapshot :=
  ⟨.FREEZE, [], some true, some true, 50, true, true, true, true, true⟩

/-- The job of `test_free_space`: condition `[FREE_SPACE]`, no
`on_condition`. -/
def freeSpaceJob : JobConfig := ⟨"TestClass.execute", [.FREE_SPACE], none⟩

/-- Snapshot with exactly 1.0 GiB free on the work volume. -/
def snapFreeExactlyOne : SystemSnapshot :=
  ⟨.RUNNING, [], some true, some true, 1, true, true, true, true, true⟩

/-- Snapshot with 0.125 GiB free (the 512^3 bytes of `test_free_space`). -/
def snapFreeLow : SystemSnapshot :=
  ⟨.RUNNING, [], some true, some true, 1/8, true, true, true, true, true⟩

/-- Modelled from the spec: the THROTTLE / THROTTLE_WAIT admission arithmetic
(spec section 4.2).  Given the throttle period, the current `last_run_at`
(`none` before any run) and the serialized list of monotonic times at which
invocations reach the admission check, return the times of the successful
admissions: an attempt is rejected when `now - last_run_at <
throttle_period`, and an admission updates `last_run_at` at entry.  The
admission check and the `last_run_at` update are atomic (spec section 5), so
concurrent invocations appear here as a serialized list of check times. -/
def admittedTimes (p : Nat) : Option Nat → List Nat → List Nat
  | _, [] => []
  | none, t :: ts => t :: admittedTimes p (some t) ts
  | some l, t :: ts =>
    if t - l < p then admittedTimes p (some l) ts
    else t :: admittedTimes p (some t) ts

/-- Modelled from the spec: observable body events of a serialized job —
invocation `id` begins its body, or ends it (spec section 4.5:
`ADMITTED → RUNNING` and `RUNNING → DRAINING`). -/
inductive BodyEvent where
  | bstart (id : Nat)
  | bend (id : Nat)
deriving DecidableEq

/-- Modelled from the spec: the per-record mutex of SINGLE / SINGLE_WAIT /
ONCE (spec sections 3 and 4.2).  The state is the current lock holder; a
body may start only when the lock is free and ends only for the holder.
`none` as a result means the event is impossible for the gate. -/
def stepHolder : Option Nat → BodyEvent → Option (Option Nat)
  | none, .bstart i => some (some i)
  | some _, .bstart _ => none
  | some h, .bend i => if h = i then some none else none
  | none, .bend _ => none

/-- Run a list of body events through the mutex, returning the final holder
when every event is possible for the gate. -/
def runHolder : Option Nat → List BodyEvent → Option (Option Nat)
  | h, [] => some h
  | h, e :: es =>
    match stepHolder h e with
    | none => none
    | some h2 => runHolder h2 es

/-- A trace of body events is one the SINGLE / SINGLE_WAIT / ONCE gate can
produce: starting from a free lock, every event is possible. -/
def validTrace (tr : List BodyEvent) : Bool :=
  (runHolder none tr).isSome

/-- The serialized trace of three SINGLE_WAIT invocations, as in
`test_exectution_limit_single_wait`. -/
def serializedThree : List BodyEvent :=
  [.bstart 1, .bend 1, .bstart 2, .bend 2, .bstart 3, .bend 3]

/-- Modelled from the spec: result of one admission attempt against the ONCE
limiter (spec sections 4.2 and 7): admitted, or rejected busy raising the
configured `on_condition` kind, or rejected busy with the neutral result
when no `on_condition` is configured. -/
inductive OnceOutcome where
  | admitted
  | busyRaised (k : ErrKind)
  | busyNeutral
deriving DecidableEq

/-- Modelled from the spec: the ONCE limiter's start gate (spec section 4.2).
`running` lists the ids of in-flight admitted invocations; a start while any
is in flight is rejected as busy (`JobConditionBusy`, raised as the
configured `on_condition` kind) without touching the state, otherwise it is
admitted and recorded. -/
def onceStart (onc : Option ErrKind) (running : List Nat) (id : Nat) :
    List Nat × OnceOutcome :=
  if running.isEmpty then
    (id :: running, .admitted)
  else
    match onc with
    | some k => (running, .busyRaised k)
    | none => (running, .busyNeutral)

/-- Modelled from the spec: an in-flight ONCE invocation completes and is
removed from the record on every exit path (spec section 4.3 step 5). -/
def onceFinish (running : List Nat) (id : Nat) : List Nat :=
  running.erase id

/-- An event against the ONCE limiter: an invocation attempts to start, or an
in-flight one finishes. -/
inductive OnceEvent where
  | start (id : Nat)
  | finish (id : Nat)
deriving DecidableEq

/-- Run a list of ONCE events, collecting the outcome of every start
attempt. -/
def onceRun (onc : Option ErrKind) : List Nat → List OnceEvent →
    List OnceOutcome
  | _, [] => []
  | running, .start id :: es =>
    let out := onceStart onc running id
    out.2 :: onceRun onc out.1 es
  | running, .finish id :: es => onceRun onc (onceFinish running id) es

/-- Snapshot in the SETUP core state (connectivity evaluated, not
pre-filtered) with both connectivity values unknown. -/
def snapUnknownConn : SystemSnapshot :=
  ⟨.SETUP, [], none, none, 50, true, true, true, true, true⟩

/-- C1: with both connectivity values false and conditions
`[INTERNET_SYSTEM, INTERNET_HOST]`, an invocation in core state INITIALIZE,
STARTUP, CLOSE, SHUTDOWN or STOPPING is admitted and returns the body's
result `true`, while one in SETUP, RUNNING or FREEZE is rejected with the
neutral result. -/
theorem internet_conditions_core_state_gate :
    runJob internetJob [] (snapConnDown .INITIALIZE) (.ok true) = .ran true ∧
    runJob internetJob [] (snapConnDown .STARTUP) (.ok true) = .ran true ∧
    runJob internetJob [] (snapConnDown .CLOSE) (.ok true) = .ran true ∧
    runJob internetJob [] (snapConnDown .SHUTDOWN) (.ok true) = .ran true ∧
    runJob internetJob [] (snapConnDown .STOPPING) (.ok true) = .ran true ∧
    runJob internetJob [] (snapConnDown .SETUP) (.ok true) = .neutral ∧
    runJob internetJob [] (snapConnDown .RUNNING) (.ok true) = .neutral ∧
    runJob internetJob [] (snapConnDown .FREEZE) (.ok true) = .neutral := by
  decide

/-- C10: `add_addon_repository` is idempotent — adding a repository already in
`addons_repositories` leaves the config unchanged, two consecutive adds equal
one add, and the repository is a member afterward. -/
theorem add_addon_repository_idempotent (c : CoreConfig) (r : String) :
    (r ∈ c.addons_repositories → c.add_addon_repository r = c) ∧
    (c.add_addon_repository r).add_addon_repository r = c.add_addon_repository r ∧
    r ∈ (c.add_addon_repository r).addons_repositories := by
  refine ⟨fun hmem => ?_, ?_, ?_⟩
  · simp [CoreConfig.add_addon_repository, CoreConfig.addons_repositories] at hmem ⊢
    simp [hmem]
  · by_cases hmem : r ∈ c.addons_custom_list
    · simp [CoreConfig.add_addon_repository, hmem]
    · simp [CoreConfig.add_addon_repository, hmem]
  · by_cases hmem : r ∈ c.addons_custom_list
    · simp [CoreConfig.add_addon_repository, CoreConfig.addons_repositories, hmem]
    · simp [CoreConfig.add_addon_repository, CoreConfig.addons_repositories, hmem]

/-- C10 witness: the idempotence theorem applied at a concrete config that
already contains the repository. -/
theorem add_addon_repository_idempotent_witness :
    CoreConfig.add_addon_repository ⟨["https://a.example"]⟩ "https://a.example" =
      (⟨["https://a.example"]⟩ : CoreConfig) :=
  (add_addon_repository_idempotent ⟨["https://a.example"]⟩ "https://a.example").1
    (by decide)

/-- C2: when an admitted body raises an error, a domain error (the
supervisor's base error type or a descendant) is re-raised unchanged, and
any other error is wrapped in `JobException` with the operation identity and
the original cause attached. -/
theorem guard_error_mapping (cfg : JobConfig) (ignore : List JobCondition)
    (snap : SystemSnapshot) (e : RaisedError)
    (h : firstFailing snap ignore cfg.conditions = none) :
    (e.isDomain = true →
      runJob cfg ignore snap (Except.error e : Except RaisedError Bool) =
        .err (.passthrough e)) ∧
    (e.isDomain = false →
      runJob cfg ignore snap (Except.error e : Except RaisedError Bool) =
        .err (.jobException cfg.name e)) := by
  constructor <;> intro hd <;> simp [runJob, h, hd]

/-- C2 witness: the error-mapping theorem applied to the healthy-condition
job of `test_exception` / `test_exception_not_handle` with one domain and
one unknown error. -/
theorem guard_error_mapping_witness :
    runJob ⟨"TestClass.execute", [JobCondition.HEALTHY], none⟩ [] snapHealthy
        (Except.error ⟨true, "HassioError"⟩ : Except RaisedError Bool) =
      .err (.passthrough ⟨true, "HassioError"⟩) ∧
    runJob ⟨"TestClass.execute", [JobCondition.HEALTHY], none⟩ [] snapHealthy
        (Except.error ⟨false, "Exception"⟩ : Except RaisedError Bool) =
      .err (.jobException "TestClass.execute" ⟨false, "Exception"⟩) :=
  ⟨(guard_error_mapping ⟨"TestClass.execute", [JobCondition.HEALTHY], none⟩ []
      snapHealthy ⟨true, "HassioError"⟩ (by decide)).1 rfl,
   (guard_error_mapping ⟨"TestClass.execute", [JobCondition.HEALTHY], none⟩ []
      snapHealthy ⟨false, "Exception"⟩ (by decide)).2 rfl⟩

/-- C4: on an invocation with a failing condition, a job configured with
`on_condition = E` raises an error of kind `E` carrying the failing
condition and the body never runs; without `on_condition` the call returns
the neutral result, again for every body. -/
theorem condition_failure_policy (cfg : JobConfig) (ignore : List JobCondition)
    (snap : SystemSnapshot) (c : JobCondition)
    (h : firstFailing snap ignore cfg.conditions = some c) :
    (∀ k, cfg.on_condition = some k →
      ∀ body : Except RaisedError Bool,
        runJob cfg ignore snap body = .err (.conditionError k c)) ∧
    (cfg.on_condition = none →
      ∀ body : Except RaisedError Bool, runJob cfg ignore snap body = .neutral) := by
  constructor
  · intro k hk body
    simp [runJob, h, hk]
  · intro hk body
    simp [runJob, h, hk]

/-- C4 witness: the condition-failure theorem applied to the
`test_exception_conditions` job (`on_condition = HassioError`) and the
`test_running` job (no `on_condition`) in the FREEZE core state. -/
theorem condition_failure_policy_witness :
    runJob ⟨"TestClass.execute", [JobCondition.RUNNING], some .HassioError⟩ []
        snapFreeze (Except.ok true : Except RaisedError Bool) =
      .err (.conditionError .HassioError .RUNNING) ∧
    runJob ⟨"TestClass.execute", [JobCondition.RUNNING], none⟩ []
        snapFreeze (Except.ok true : Except RaisedError Bool) = .neutral :=
  ⟨(condition_failure_policy ⟨"TestClass.execute", [JobCondition.RUNNING],
      some .HassioError⟩ [] snapFreeze .RUNNING (by decide)).1 .HassioError rfl
      (Except.ok true),
   (condition_failure_policy ⟨"TestClass.execute", [JobCondition.RUNNING],
      none⟩ [] snapFreeze .RUNNING (by decide)).2 rfl (Except.ok true)⟩

/-- C7: a condition in the ignore set never causes a rejection — it is never
the failing condition; a call whose only failing condition is `c` is
admitted (returning the body's result) once `c` is ignored; and a failing
condition not in the ignore set still rejects. -/
theorem ignored_condition_never_rejects (snap : SystemSnapshot)
    (ignore conds : List JobCondition) (c : JobCondition) :
    (c ∈ ignore → firstFailing snap ignore conds ≠ some c) ∧
    ((∀ d ∈ conds, d ≠ c → evalCondition snap d = true) →
      firstFailing snap [c] conds = none) ∧
    ((∀ d ∈ conds, d ≠ c → evalCondition snap d = true) →
      ∀ (name : String) (onc : Option ErrKind) (r : Bool),
        runJob ⟨name, conds, onc⟩ [c] snap (Except.ok r) = .ran r) ∧
    (∀ d ∈ conds, d ∉ ignore → evalCondition snap d = false →
      firstFailing snap ignore conds ≠ none) := by
  have key : (∀ d ∈ conds, d ≠ c → evalCondition snap d = true) →
      firstFailing snap [c] conds = none := by
    intro hall
    refine List.find?_eq_none.mpr fun d hd => ?_
    by_cases hdc : d = c
    · subst hdc
      simp [failsCondition]
    · simp [failsCondition, hall d hd hdc]
  refine ⟨?_, key, ?_, ?_⟩
  · intro hc heq
    have hp := List.find?_some heq
    simp [failsCondition, hc] at hp
  · intro hall name onc r
    simp [runJob, key hall]
  · intro d hd hdi hde heq
    have hp := List.find?_eq_none.mp heq d hd
    simp [failsCondition, hdi, hde] at hp

/-- C7 witness: the ignore-set theorem applied to the
`test_ignore_conditions` scenario — condition `RUNNING` in core state
FREEZE, ignored. -/
theorem ignored_condition_never_rejects_witness :
    firstFailing snapFreeze [JobCondition.RUNNING] [JobCondition.RUNNING] ≠
      some JobCondition.RUNNING ∧
    runJob ⟨"TestClass.execute", [JobCondition.RUNNING], none⟩
        [JobCondition.RUNNING] snapFreeze (Except.ok true) = .ran true :=
  ⟨(ignored_condition_never_rejects snapFreeze [JobCondition.RUNNING]
      [JobCondition.RUNNING] JobCondition.RUNNING).1 (by decide),
   (ignored_condition_never_rejects snapFreeze [JobCondition.RUNNING]
      [JobCondition.RUNNING] JobCondition.RUNNING).2.2.1 (by decide)
      "TestClass.execute" none true⟩

/-- C8: when the core state is not pre-filtered, the INTERNET_HOST and
INTERNET_SYSTEM conditions pass exactly when the corresponding tri-valued
connectivity is not `false`; in particular unknown (`none`) passes like
`true`. -/
theorem unknown_connectivity_passes (snap : SystemSnapshot)
    (h : prefilterAutoPass snap.core_state = false) :
    (evalCondition snap .INTERNET_HOST = true ↔
      snap.connectivity_host ≠ some false) ∧
    (evalCondition snap .INTERNET_SYSTEM = true ↔
      snap.connectivity_supervisor ≠ some false) ∧
    (snap.connectivity_host = none → evalCondition snap .INTERNET_HOST = true) ∧
    (snap.connectivity_supervisor = none →
      evalCondition snap .INTERNET_SYSTEM = true) := by
  refine ⟨?_, ?_, fun hc => ?_, fun hc => ?_⟩ <;> simp [evalCondition, h, *]

/-- C8 witness: the unknown-connectivity theorem applied in the SETUP core
state with both connectivity values unknown. -/
theorem unknown_connectivity_passes_witness :
    evalCondition snapUnknownConn .INTERNET_HOST = true :=
  (unknown_connectivity_passes snapUnknownConn (by decide)).2.2.1 rfl

/-- C9: the FREE_SPACE condition passes if and only if at least 1.0 GiB is
free; with exactly 1.0 GiB free the wrapped call is admitted and returns
the body's result, and with 0.125 GiB free it is rejected with the neutral
result. -/
theorem free_space_threshold :
    (∀ snap : SystemSnapshot,
      evalCondition snap .FREE_SPACE = true ↔ 1 ≤ snap.free_disk_gib) ∧
    runJob freeSpaceJob [] snapFreeExactlyOne
      (Except.ok true : Except RaisedError Bool) = .ran true ∧
    runJob freeSpaceJob [] snapFreeLow
      (Except.ok true : Except RaisedError Bool) = .neutral := by
  refine ⟨fun snap => ?_, by decide, ?_⟩
  · simp [evalCondition]
  · have hlow : evalCondition snapFreeLow .FREE_SPACE = false := by
      simp only [evalCondition, snapFreeLow, decide_eq_false_iff_not]
      norm_num
    simp [runJob, firstFailing, freeSpaceJob, failsCondition, List.find?, hlow]

/-- C9 witness: the threshold equivalence applied to the snapshot with
exactly 1.0 GiB free. -/
theorem free_space_threshold_witness :
    evalCondition snapFreeExactlyOne .FREE_SPACE = true ↔
      1 ≤ snapFreeExactlyOne.free_disk_gib :=
  free_space_threshold.1 snapFreeExactlyOne

/-- Helper for the throttle claim: under a throttle period `p`, with
`last_run_at = some l` and a non-decreasing list of later check times,
successive admissions are at least `p` apart and every admission is at
least `l + p`. -/
theorem admittedTimes_sep (p : Nat) (ts : List Nat) : ∀ l : Nat,
    List.Pairwise (· ≤ ·) ts → (∀ t ∈ ts, l ≤ t) →
    List.Pairwise (fun a b => a + p ≤ b) (admittedTimes p (some l) ts) ∧
    ∀ u ∈ admittedTimes p (some l) ts, l + p ≤ u := by
  induction ts with
  | nil =>
    intro l _ _
    simp [admittedTimes]
  | cons t ts ih =>
    intro l hsort hlb
    rw [List.pairwise_cons] at hsort
    have hlt : l ≤ t := hlb t (List.mem_cons_self t ts)
    by_cases hcase : t - l < p
    · have hrec := ih l hsort.2 fun x hx => le_trans hlt (hsort.1 x hx)
      simpa [admittedTimes, hcase] using hrec
    · have hadm : l + p ≤ t := by omega
      have hrec := ih t hsort.2 hsort.1
      rw [admittedTimes, if_neg hcase]
      constructor
      · rw [List.pairwise_cons]
        exact ⟨hrec.2, hrec.1⟩
      · intro u hu
        rcases List.mem_cons.mp hu with hu | hu
        · omega
        · have := hrec.2 u hu
          omega

/-- C3: for a THROTTLE_WAIT job with throttle period `p`, any two successful
admissions in a serialized, time-ordered run are at least `p` apart; in the
test's scenario (period one hour, three concurrent invocations whose
admission checks land within 200 ms) exactly one body runs, and a fourth
invocation inside the period does not run it. -/
theorem throttle_wait_one_per_period (p : Nat) (ts : List Nat)
    (h : List.Pairwise (· ≤ ·) ts) :
    List.Pairwise (fun a b => a + p ≤ b) (admittedTimes p none ts) ∧
    admittedTimes 3600000 none [0, 100, 200] = [0] ∧
    admittedTimes 3600000 none [0, 100, 200, 300] = [0] := by
  refine ⟨?_, by decide, by decide⟩
  cases ts with
  | nil => simp [admittedTimes]
  | cons t ts' =>
    rw [List.pairwise_cons] at h
    have key := admittedTimes_sep p ts' t h.2 h.1
    rw [admittedTimes, List.pairwise_cons]
    exact ⟨key.2, key.1⟩

/-- C3 witness: the separation theorem applied to a concrete sorted list of
admission-check times. -/
theorem throttle_wait_one_per_period_witness :
    List.Pairwise (fun a b => a + 5 ≤ b) (admittedTimes 5 none [0, 2, 7]) :=
  (throttle_wait_one_per_period 5 [0, 2, 7] (by decide)).1

/-- C5: an invocation of a ONCE job started while another is in flight is
rejected busy, raised as the configured `on_condition` error kind, without
running the body or touching the record; a start with nothing in flight is
admitted; and in the `test_exectution_limit_once` event sequence the second
start raises `JobException` while the start after the first finish
succeeds. -/
theorem once_busy_rejection (onc : Option ErrKind) (running : List Nat)
    (id : Nat) :
    (running ≠ [] → ∀ k, onc = some k →
      onceStart onc running id = (running, .busyRaised k)) ∧
    (running = [] → onceStart onc running id = ([id], .admitted)) ∧
    onceRun (some .JobException) [] [.start 1, .start 2, .finish 1, .start 3] =
      [.admitted, .busyRaised .JobException, .admitted] := by
  refine ⟨?_, ?_, by decide⟩
  · intro hne k hk
    have hemp : running.isEmpty = false := by
      cases running with
      | nil => exact absurd rfl hne
      | cons a l => rfl
    simp [onceStart, hemp, hk]
  · intro he
    subst he
    simp [onceStart]

/-- C5 witness: the busy-rejection theorem applied with invocation 1 in
flight and `on_condition = JobException`. -/
theorem once_busy_rejection_witness :
    onceStart (some ErrKind.JobException) [1] 2 =
      ([1], .busyRaised ErrKind.JobException) :=
  (once_busy_rejection (some ErrKind.JobException) [1] 2).1 (by decide)
    ErrKind.JobException rfl

/-- Helper for the serialization claim: running a concatenation of body
events threads the holder through the first part. -/
theorem runHolder_append (l1 l2 : List BodyEvent) : ∀ h : Option Nat,
    runHolder h (l1 ++ l2) =
      (runHolder h l1).bind fun h2 => runHolder h2 l2 := by
  induction l1 with
  | nil => intro h; simp [runHolder]
  | cons e l1 ih =>
    intro h
    rw [List.cons_append, runHolder, runHolder]
    cases hstep : stepHolder h e with
    | none => simp
    | some h2 => simp [ih h2]

/-- C6: bodies of a SINGLE / SINGLE_WAIT / ONCE job never overlap — in any
trace the gate can produce, between one invocation's body start and the next
body start, the first invocation's body end occurs; and the serialized trace
of the three SINGLE_WAIT invocations of the test is a gate trace in which
all three bodies run. -/
theorem serialized_bodies_no_overlap (i j : Nat) (l1 l2 l3 : List BodyEvent)
    (h : validTrace (l1 ++ (.bstart i :: (l2 ++ (.bstart j :: l3)))) = true) :
    BodyEvent.bend i ∈ l2 ∧
    validTrace serializedThree = true ∧
    BodyEvent.bstart 1 ∈ serializedThree ∧
    BodyEvent.bstart 2 ∈ serializedThree ∧
    BodyEvent.bstart 3 ∈ serializedThree := by
  refine ⟨?_, by decide, by decide, by decide, by decide⟩
  by_contra hmem
  unfold validTrace at h
  rw [runHolder_append] at h
  cases h1 : runHolder none l1 with
  | none => rw [h1] at h; simp at h
  | some hh =>
    rw [h1] at h
    simp only [Option.some_bind] at h
    cases hh with
    | some k => simp [runHolder, stepHolder] at h
    | none =>
      simp only [runHolder, stepHolder] at h
      cases l2 with
      | nil => simp [runHolder, stepHolder] at h
      | cons e l2' =>
        have hne : e ≠ BodyEvent.bend i :=
          fun he => hmem (he ▸ List.mem_cons_self e l2')
        cases e with
        | bstart k => simp [runHolder, stepHolder] at h
        | bend k =>
          have hki : ¬ i = k := fun hik => hne (by rw [hik])
          simp [runHolder, stepHolder, hki] at h

/-- C6 witness: the non-overlap theorem applied to the valid trace in which
invocation 2 starts only after invocation 1 ends. -/
theorem serialized_bodies_no_overlap_witness :
    BodyEvent.bend 1 ∈ [BodyEvent.bend 1] :=
  (serialized_bodies_no_overlap 1 2 [] [BodyEvent.bend 1] [BodyEvent.bend 2]
    (by decide)).1
